import Mathlib

/- Verification of the SRGAN model definition (src/SRGAN/srgan_model.py).

   Modelling conventions.
   A 4-D tensor of static shape (batch, a, b, c) whose batch dimension is
   dynamic is modelled by its three static dimensions together with a total
   valuation on (batch, i, j, k) indices.  float32 arithmetic is modelled by
   exact real arithmetic.  Framework layers that carry learned parameters
   (conv2d kernels and biases, batch-normalization scale and offset, dense
   weights) are modelled as per-layer value transformations supplied by an
   environment keyed by the layer name, since their numerical internals
   belong to the host framework, not to this repository; their static shape
   behaviour (SAME padding, channel counts) is modelled concretely.
   Framework operations with fixed data movement (split, concat, reshape,
   add, flatten, activations) are modelled concretely, following the
   documented TensorFlow semantics. -/

namespace SRGANModel

/-- A 4-D tensor: static dimensions (a, b, c) following the dynamic batch
dimension, and a total valuation on (batch, i, j, k) indices. -/
structure T (α : Type) where
  a : ℕ
  b : ℕ
  c : ℕ
  val : ℕ → ℕ → ℕ → ℕ → α

/-- tf.split(x, s, 3) (srgan_model.py line 17): splits x into s tensors of
c / s channels each along axis 3; piece t holds the channel range
[t * (c / s), (t + 1) * (c / s)). -/
def tf_split3 {α : Type} (x : T α) (s : ℕ) : ℕ → T α := fun t =>
  ⟨x.a, x.b, x.c / s, fun n i j k => x.val n i j (t * (x.c / s) + k)⟩

/-- tf.concat(xs, 2) (srgan_model.py line 18) for s equally shaped tensors:
stacks them along axis 2; index j of the result addresses piece j / b at
inner width index j % b. -/
def tf_concat2 {α : Type} (xs : ℕ → T α) (s : ℕ) : T α :=
  ⟨(xs 0).a, s * (xs 0).b, (xs 0).c,
    fun n i j k => (xs (j / (xs 0).b)).val n i (j % (xs 0).b) k⟩

/-- tf.reshape(x, (bsize, a2, b2, c2)) (srgan_model.py line 20) in row-major
order: the output index (n, i, j, k) reads the flat position
((n * a2 + i) * b2 + j) * c2 + k of the input, decomposed over the input
dimensions. -/
def tf_reshape {α : Type} (x : T α) (a2 b2 c2 : ℕ) : T α :=
  ⟨a2, b2, c2, fun n i j k =>
    x.val ((((n * a2 + i) * b2 + j) * c2 + k) / (x.a * (x.b * x.c)))
      ((((n * a2 + i) * b2 + j) * c2 + k) / (x.b * x.c) % x.a)
      ((((n * a2 + i) * b2 + j) * c2 + k) / x.c % x.b)
      ((((n * a2 + i) * b2 + j) * c2 + k) % x.c)⟩

/-- sub_pixel_conv2d(x, None, s) (srgan_model.py lines 7-20): with f = None
the output channel count is f = c / s ** 2 (Python integer division), then
split along channels into s pieces, concat along the width axis, and reshape
to (bsize, s * a, s * b, f). -/
def sub_pixel_conv2d {α : Type} (x : T α) (s : ℕ) : T α :=
  tf_reshape (tf_concat2 (tf_split3 x s) s) (s * x.a) (s * x.b) (x.c / s ^ 2)

/-- tf.split with its native precondition: TensorFlow rejects the split at
graph-construction time unless s divides the size of the split axis. -/
def tf_split3_checked {α : Type} (x : T α) (s : ℕ) : Option (ℕ → T α) :=
  if s ∣ x.c then some (tf_split3 x s) else none

/-- tf.reshape with its native precondition: the element counts of source
and target shapes must agree (the dynamic batch dimension, identical on both
sides, is factored out). -/
def tf_reshape_checked {α : Type} (x : T α) (a2 b2 c2 : ℕ) : Option (T α) :=
  if x.a * x.b * x.c = a2 * b2 * c2 then some (tf_reshape x a2 b2 c2) else none

/-- sub_pixel_conv2d with the framework's native failure behaviour: the
module itself adds no checks and no handling, so the result is none exactly
when one of the framework operations rejects its input. -/
def sub_pixel_conv2d_checked {α : Type} (x : T α) (s : ℕ) : Option (T α) :=
  match tf_split3_checked x s with
  | none => none
  | some x_s => tf_reshape_checked (tf_concat2 x_s s) (s * x.a) (s * x.b) (x.c / s ^ 2)

/-- Feeding a tensor to a tf.placeholder with a declared static shape: the
framework natively rejects a fed value whose shape differs from the declared
one; the module adds no handling around this. -/
def feed_placeholder {α : Type} (shape : ℕ × ℕ × ℕ) (x : T α) : Option (T α) :=
  if (x.a, x.b, x.c) = shape then some x else none

/-- The shape [None, input_height // 2, input_width // 2, input_channel] of
the low-resolution placeholder x_lr (srgan_model.py line 88), without the
dynamic batch entry. -/
def lr_image_shape (input_height input_width input_channel : ℕ) : ℕ × ℕ × ℕ :=
  (input_height / 2, input_width / 2, input_channel)

/-- The shape [None, input_height, input_width, input_channel] of the
high-resolution placeholder x_hr (srgan_model.py line 89), without the
dynamic batch entry. -/
def hr_image_shape (input_height input_width input_channel : ℕ) : ℕ × ℕ × ℕ :=
  (input_height, input_width, input_channel)

/-- tf.nn.sigmoid on a scalar. -/
noncomputable def sigmoid (t : ℝ) : ℝ := 1 / (1 + Real.exp (-t))

/-- tf.nn.relu on a scalar. -/
def relu (t : ℝ) : ℝ := max 0 t

/-- tf.nn.leaky_relu on a scalar (TensorFlow default alpha = 0.2). -/
def leaky_relu (t : ℝ) : ℝ := max t (0.2 * t)

/-- Environment assigning to each named parameterized 4-D layer its learned
value transformation. -/
abbrev Env : Type := String → (ℕ → ℕ → ℕ → ℕ → ℝ) → ℕ → ℕ → ℕ → ℕ → ℝ

/-- Environment assigning to each named parameterized 2-D layer its learned
value transformation. -/
abbrev Env2 : Type := String → (ℕ → ℕ → ℝ) → ℕ → ℕ → ℝ

/-- The identity environment, used to instantiate theorems at a concrete
parameter assignment. -/
def id_env : Env := fun _ v => v

/-- The identity environment for 2-D layers. -/
def id_env2 : Env2 := fun _ v => v

/-- conv2d (srgan_model.py lines 23-40): tf.layers.conv2d with f filters,
kernel size k, stride d, activation act, SAME padding (the only padding used
in this module).  With SAME padding the output spatial size is
ceil(in / d) = (in + d - 1) / d and the channel count is f; the learned
kernel and bias are supplied by the environment under the layer name. -/
def conv2d (env : Env) (f k d : ℕ) (act : ℝ → ℝ) (name : String) (x : T ℝ) : T ℝ :=
  ⟨(x.a + d - 1) / d, (x.b + d - 1) / d, f,
    fun n i j q => act (env name x.val n i j q)⟩

/-- batch_norm (srgan_model.py lines 43-48): tf.layers.batch_normalization,
shape preserving; its learned scale/offset transformation is supplied by the
environment, keyed here by the name of the enclosing layer or scope (the
source relies on framework auto-naming, which is immaterial to the claims). -/
def batch_norm (env : Env) (name : String) (x : T ℝ) : T ℝ :=
  ⟨x.a, x.b, x.c, env name x.val⟩

/-- tf.add: elementwise addition (operands have equal static shapes at every
use in this module). -/
def tf_add (x y : T ℝ) : T ℝ :=
  ⟨x.a, x.b, x.c, fun n i j k => x.val n i j k + y.val n i j k⟩

/-- tf.nn.relu applied elementwise to a tensor. -/
def tf_relu (x : T ℝ) : T ℝ :=
  ⟨x.a, x.b, x.c, fun n i j k => relu (x.val n i j k)⟩

/-- tf.nn.sigmoid applied elementwise to a tensor. -/
noncomputable def tf_sigmoid (x : T ℝ) : T ℝ :=
  ⟨x.a, x.b, x.c, fun n i j k => sigmoid (x.val n i j k)⟩

/-- tf.nn.leaky_relu applied elementwise to a tensor. -/
def tf_leaky_relu (x : T ℝ) : T ℝ :=
  ⟨x.a, x.b, x.c, fun n i j k => leaky_relu (x.val n i j k)⟩

/-- A 2-D tensor (batch dimension dynamic, one static dimension), the result
of flatten and input/output of dense layers. -/
structure T2 (α : Type) where
  c : ℕ
  val : ℕ → ℕ → α

/-- tf.layers.flatten: row-major flattening of the three static dimensions. -/
def tf_flatten (x : T ℝ) : T2 ℝ :=
  ⟨x.a * (x.b * x.c),
    fun n m => x.val n (m / (x.b * x.c)) (m / x.c % x.b) (m % x.c)⟩

/-- tf.layers.dense with the given unit count and activation; the learned
weight matrix and bias are supplied by the environment under the layer
name. -/
def dense (env : Env2) (units : ℕ) (act : ℝ → ℝ) (name : String) (x : T2 ℝ) : T2 ℝ :=
  ⟨units, fun n m => act (env name x.val n m)⟩

/-- Name of the i-th residual-block scope of the generator
(srgan_model.py lines 177-178). -/
def resName (i : ℕ) : String := "g-residual_block_" ++ toString i

/-- residual_block (srgan_model.py lines 164-170): conv2d with gf_dim
filters, then batch normalization, then ReLU. -/
def residual_block (envC envB : Env) (gf : ℕ) (name : String) (x : T ℝ) : T ℝ :=
  tf_relu (batch_norm envB name (conv2d envC gf 3 1 id name x))

/-- generator (srgan_model.py lines 156-195): first conv (ReLU activation),
8 residual additions of pairs of residual blocks, post-block conv plus batch
norm, long skip addition with the first conv output, one conv plus
sub-pixel upsampling plus ReLU (the loop for i in range(1, 2)), and a final
1x1 conv with input_channel filters followed by sigmoid. -/
noncomputable def generator (envC envB : Env) (gf_dim input_channel : ℕ) (x : T ℝ) : T ℝ :=
  let x0 := conv2d envC gf_dim 3 1 relu ("g-conv2d-0") x
  let xr := (List.range' 1 8).foldl (fun y i =>
    tf_add y (residual_block envC envB gf_dim (resName (2 * i))
      (residual_block envC envB gf_dim (resName (2 * i - 1)) y))) x0
  let y1 := tf_add x0 (batch_norm envB ("g-conv2d-1")
    (conv2d envC gf_dim 3 1 id ("g-conv2d-1") xr))
  let y2 := (List.range' 1 1).foldl (fun y i =>
    tf_relu (sub_pixel_conv2d
      (conv2d envC (gf_dim * 4) 3 1 id ("g-conv2d-" ++ toString (i + 2)) y) 2)) y1
  tf_sigmoid (conv2d envC input_channel 1 1 id ("g-conv2d-5") y2)

/-- One residual addition of the generator as worded by the specification:
the block computes two conv + batch-norm + ReLU stages F on its input y and
outputs the elementwise sum y + F(y). -/
def res_block_pair (envC envB : Env) (gf i : ℕ) (y : T ℝ) : T ℝ :=
  tf_add y (residual_block envC envB gf (resName (2 * i))
    (residual_block envC envB gf (resName (2 * i - 1)) y))

/-- The chain of the first k residual additions of the generator. -/
def res_tower (envC envB : Env) (gf : ℕ) : ℕ → T ℝ → T ℝ
  | 0, y => y
  | k + 1, y => res_block_pair envC envB gf (k + 1) (res_tower envC envB gf k y)

/-- TensorFlow auto-generated layer name for the i-th unnamed
batch-normalization layer in a scope. -/
def bn_auto_name (i : ℕ) : String :=
  if i = 0 then "batch_normalization" else "batch_normalization_" ++ toString i

/-- discriminator (srgan_model.py lines 128-154): first conv with leaky-ReLU
activation, then for each of the filter multipliers [2, 4, 4, 8] (times
df_dim) a conv with stride [1, 2][i % 2] followed by batch norm and
leaky-ReLU, then flatten and two dense layers, the last with a single unit
and sigmoid activation. -/
noncomputable def discriminator (envC envB : Env) (envD : Env2) (df_dim : ℕ) (x : T ℝ) : T2 ℝ :=
  let x1 := conv2d envC df_dim 3 1 leaky_relu ("d-conv2d-0") x
  let x2 := (([2, 4, 4, 8].map (fun fs => fs * df_dim)).enum).foldl (fun y p =>
    tf_leaky_relu (batch_norm envB (bn_auto_name p.1)
      (conv2d envC p.2 3 ([1, 2].getD (p.1 % 2) 1) id
        ("d-conv2d-" ++ toString (p.1 + 1)) y))) x1
  dense envD 1 sigmoid ("d-fc-1") (dense envD 1024 leaky_relu ("d-fc-0") (tf_flatten x2))

/-- Variable names created by one tf.layers.conv2d layer under a scope. -/
def conv_vars (scope name : String) : List String :=
  [scope ++ "/" ++ name ++ "/kernel", scope ++ "/" ++ name ++ "/bias"]

/-- Trainable variable names created by one batch-normalization layer under
a scope (scale = True, so gamma and beta; the moving statistics are not
trainable). -/
def bn_vars (scope base : String) : List String :=
  [scope ++ "/" ++ base ++ "/gamma", scope ++ "/" ++ base ++ "/beta"]

/-- Variable names created by one tf.layers.dense layer under a scope. -/
def dense_vars (scope name : String) : List String := conv_vars scope name

/-- Trainable variable names of the i-th residual block of the generator:
its conv layer (created inside tf.variable_scope(name) with the same layer
name, hence the doubled path component) and its batch normalization. -/
def res_block_vars (i : ℕ) : List String :=
  conv_vars ("generator/" ++ resName i) (resName i) ++
    bn_vars ("generator/" ++ resName i) ("batch_normalization")

/-- Trainable variable names created under tf.variable_scope("generator")
(srgan_model.py lines 156-195), in creation order. -/
def generator_vars : List String :=
  conv_vars ("generator") ("g-conv2d-0") ++
  (List.range' 1 16).foldl (fun acc i => acc ++ res_block_vars i) [] ++
  conv_vars ("generator") ("g-conv2d-1") ++
  bn_vars ("generator") ("batch_normalization") ++
  conv_vars ("generator") ("g-conv2d-3") ++
  conv_vars ("generator") ("g-conv2d-5")

/-- Trainable variable names created under
tf.variable_scope("discriminator") (srgan_model.py lines 128-154), in
creation order; the second discriminator call reuses these variables and
creates none. -/
def discriminator_vars : List String :=
  conv_vars ("discriminator") ("d-conv2d-0") ++
  (List.range 4).foldl (fun acc i =>
    acc ++ conv_vars ("discriminator") ("d-conv2d-" ++ toString (i + 1)) ++
      bn_vars ("discriminator") (bn_auto_name i)) [] ++
  dense_vars ("discriminator") ("d-fc-0") ++
  dense_vars ("discriminator") ("d-fc-1")

/-- tf.trainable_variables() at srgan_model.py line 222: the generator is
built first (line 202), then the discriminator (line 205). -/
def trainable_variables : List String := generator_vars ++ discriminator_vars

/-- v.name.startswith('d') from srgan_model.py line 223: for a one-character
prefix this is the test that the first character is 'd'. -/
def startswith_d (v : String) : Bool := v.data.head? == some 'd'

/-- v.name.startswith('g') from srgan_model.py line 224. -/
def startswith_g (v : String) : Bool := v.data.head? == some 'g'

/-- Optimizer.minimize(loss, var_list) (srgan_model.py lines 226-229),
modelled at the level of the parameter assignment: a step applies its update
exactly to the variables of var_list and leaves every other variable
unchanged (documented TensorFlow behaviour of the var_list argument). -/
def minimize_step (var_list : List String) (upd theta : String → ℝ) : String → ℝ :=
  fun v => if v ∈ var_list then upd v else theta v

/-- Elementwise subtraction pred - data of two equally shaped tensors,
modelled on their flattened entry lists. -/
def tf_sub (xs ys : List ℝ) : List ℝ := List.zipWith (fun u v => u - v) xs ys

/-- tf.nn.l2_loss: half the sum of squared entries. -/
noncomputable def l2_loss (xs : List ℝ) : ℝ := (xs.map (fun u => u ^ 2)).sum / 2

/-- mse_loss (srgan_model.py lines 198-199):
tf.sqrt(2 * tf.nn.l2_loss(pred - data)) / n, a scalar. -/
noncomputable def mse_loss (pred data : List ℝ) (n : ℝ) : ℝ :=
  Real.sqrt (2 * l2_loss (tf_sub pred data)) / n

/-- tf.ones_like on the flattened entry list. -/
def tf_ones_like (xs : List ℝ) : List ℝ := xs.map (fun _ => 1)

/-- tf.zeros_like on the flattened entry list. -/
def tf_zeros_like (xs : List ℝ) : List ℝ := xs.map (fun _ => 0)

/-- tf.reduce_sum applied to a scalar (0-D) value: the sum of its single
entry, i.e. the value itself. -/
def tf_reduce_sum_scalar (v : ℝ) : ℝ := v

/-- tf.train.Saver configuration created by build_srgan. -/
structure Saver where
  max_to_keep : ℕ

/-- tf.summary.FileWriter configuration created by build_srgan. -/
structure SummaryWriter where
  logdir : String

/-- One tf.train.AdamOptimizer(...).minimize(loss, var_list) node. -/
structure AdamOp where
  learning_rate : ℝ
  beta1 : ℝ
  beta2 : ℝ
  loss : ℝ
  var_list : List String

/-- Everything build_srgan (srgan_model.py lines 197-236) constructs from
the discriminator outputs: the losses, the two optimizer nodes, the model
saver, the summary writer and the summary names. -/
structure BuildResult where
  d_loss : ℝ
  g_loss : ℝ
  d_op : AdamOp
  g_op : AdamOp
  saver : Saver
  writer : SummaryWriter
  summaries : List String

/-- build_srgan (srgan_model.py lines 197-236), taking the flattened
discriminator outputs d_real and d_fake as inputs: the loss wiring (lines
208-212 with beta1 = 0.9, beta2 = 0.999 from lines 99-100), the optimizer
wiring over the name-filtered trainable variables (lines 221-229), the
saver with max_to_keep = 1 (line 235) and the summary writer on ./model/
(line 236). -/
noncomputable def build_srgan (d_real d_fake : List ℝ) (batch_size : ℕ)
    (d_lr g_lr : ℝ) : BuildResult :=
  let d_real_loss := tf_reduce_sum_scalar
    (mse_loss d_real (tf_ones_like d_real) (batch_size : ℝ))
  let d_fake_loss := tf_reduce_sum_scalar
    (mse_loss d_fake (tf_zeros_like d_fake) (batch_size : ℝ))
  let d_loss := (d_real_loss + d_fake_loss) / 2
  let g_loss := tf_reduce_sum_scalar
    (mse_loss d_fake (tf_ones_like d_fake) (batch_size : ℝ))
  let t_vars := trainable_variables
  let d_params := t_vars.filter startswith_d
  let g_params := t_vars.filter startswith_g
  ⟨d_loss, g_loss,
    ⟨d_lr, 0.9, 0.999, d_loss, d_params⟩,
    ⟨g_lr, 0.9, 0.999, g_loss, g_params⟩,
    ⟨1⟩, ⟨"./model/"⟩,
    [("g"), ("d_real_loss"), ("d_fake_loss"), ("d_loss"), ("g_loss")]⟩

/-- Helper: dividing A * q + r by q recovers A when r < q. -/
lemma flat_div (A r q : ℕ) (hr : r < q) : (A * q + r) / q = A := by
  have hq : 0 < q := lt_of_le_of_lt (Nat.zero_le r) hr
  rw [Nat.mul_comm, Nat.mul_add_div hq, Nat.div_eq_of_lt hr, Nat.add_zero]

/-- Helper: A * q + r leaves remainder r modulo q when r < q. -/
lemma flat_mod (A r q : ℕ) (hr : r < q) : (A * q + r) % q = r := by
  rw [Nat.add_comm, Nat.add_mul_mod_self_right, Nat.mod_eq_of_lt hr]

/-- Helper: the mixed-radix remainder bound B * q1 + r < q2 * q1. -/
lemma rem_bound (B r q1 q2 : ℕ) (hB : B < q2) (hr : r < q1) :
    B * q1 + r < q2 * q1 := by
  calc B * q1 + r < B * q1 + q1 := Nat.add_lt_add_left hr (B * q1)
    _ = (B + 1) * q1 := by ring
    _ ≤ q2 * q1 := Nat.mul_le_mul_right q1 (Nat.succ_le_of_lt hB)

/-- C1: for a 4-D tensor x of static shape (bsize, a, b, c) with
c = s ^ 2 * f, sub_pixel_conv2d(x, None, s) returns a tensor of shape
(bsize, s * a, s * b, f) whose entry at (n, i * s + di, j * s + dj, k) is
the entry of x at (n, i, j, (di * s + dj) * f + k) — exactly the standard
sub-pixel convolution / pixel-shuffle (depth-to-space) permutation of the
entries of x, so the output is a rearrangement of the entries of x moving
channel data into spatial resolution. -/
theorem sub_pixel_conv2d_is_pixel_shuffle {α : Type} (x : T α) (s f : ℕ)
    (hc : x.c = s ^ 2 * f)
    (n i j di dj k : ℕ)
    (hi : i < x.a) (hj : j < x.b) (hdi : di < s) (hdj : dj < s) (hk : k < f) :
    (sub_pixel_conv2d x s).a = s * x.a ∧
    (sub_pixel_conv2d x s).b = s * x.b ∧
    (sub_pixel_conv2d x s).c = f ∧
    (sub_pixel_conv2d x s).val n (i * s + di) (j * s + dj) k
      = x.val n i j ((di * s + dj) * f + k) := by
  have hs : 0 < s := lt_of_le_of_lt (Nat.zero_le di) hdi
  have hcs2 : x.c / s ^ 2 = f := by
    rw [hc]
    exact Nat.mul_div_cancel_left f (pow_pos hs 2)
  have hcs : x.c / s = s * f := by
    rw [hc, pow_two, Nat.mul_assoc]
    exact Nat.mul_div_cancel_left (s * f) hs
  refine ⟨rfl, rfl, hcs2, ?_⟩
  have hb1 : dj * f + k < s * f := rem_bound dj k f s hdj hk
  have hb2 : di * x.b + j < s * x.b := rem_bound di j x.b s hdi hj
  simp only [sub_pixel_conv2d, tf_reshape, tf_concat2, tf_split3]
  rw [hcs2, hcs]
  have e1 : (((n * (s * x.a) + (i * s + di)) * (s * x.b) + (j * s + dj)) * f + k)
      % (s * f) = dj * f + k := by
    rw [show ((n * (s * x.a) + (i * s + di)) * (s * x.b) + (j * s + dj)) * f + k
        = ((n * x.a + i) * (s * x.b) + (di * x.b + j)) * (s * f) + (dj * f + k)
        from by ring]
    exact flat_mod _ _ _ hb1
  have e2 : (((n * (s * x.a) + (i * s + di)) * (s * x.b) + (j * s + dj)) * f + k)
      / (s * f) % (s * x.b) = di * x.b + j := by
    rw [show ((n * (s * x.a) + (i * s + di)) * (s * x.b) + (j * s + dj)) * f + k
        = ((n * x.a + i) * (s * x.b) + (di * x.b + j)) * (s * f) + (dj * f + k)
        from by ring]
    rw [flat_div _ _ _ hb1]
    exact flat_mod _ _ _ hb2
  have e3 : (((n * (s * x.a) + (i * s + di)) * (s * x.b) + (j * s + dj)) * f + k)
      / (s * x.b * (s * f)) % x.a = i := by
    rw [show ((n * (s * x.a) + (i * s + di)) * (s * x.b) + (j * s + dj)) * f + k
        = (n * x.a + i) * (s * x.b * (s * f))
            + ((di * x.b + j) * (s * f) + (dj * f + k))
        from by ring]
    rw [flat_div _ _ _ (rem_bound _ _ _ _ hb2 hb1)]
    exact flat_mod _ _ _ hi
  have e4 : (((n * (s * x.a) + (i * s + di)) * (s * x.b) + (j * s + dj)) * f + k)
      / (x.a * (s * x.b * (s * f))) = n := by
    rw [show ((n * (s * x.a) + (i * s + di)) * (s * x.b) + (j * s + dj)) * f + k
        = n * (x.a * (s * x.b * (s * f)))
            + (i * (s * x.b * (s * f))
                + ((di * x.b + j) * (s * f) + (dj * f + k)))
        from by ring]
    exact flat_div _ _ _
      (rem_bound _ _ _ _ hi (rem_bound _ _ _ _ hb2 hb1))
  rw [e4, e3, e2, e1, flat_mod _ _ _ hj, flat_div _ _ _ hj]
  rw [show di * (s * f) + (dj * f + k) = (di * s + dj) * f + k from by ring]

/-- Witness for C1: on the 1x1 tensor with 4 channels valued 0, 1, 2, 3 and
s = 2, the output entry at spatial position (1, 1) is channel 3 of the
input. -/
theorem sub_pixel_conv2d_is_pixel_shuffle_witness :
    (sub_pixel_conv2d (⟨1, 1, 4, fun _ _ _ k => (k : ℤ)⟩ : T ℤ) 2).val 0 1 1 0 = 3 := by
  have h := sub_pixel_conv2d_is_pixel_shuffle
    (⟨1, 1, 4, fun _ _ _ k => (k : ℤ)⟩ : T ℤ) 2 1 (by decide)
    0 0 0 1 1 0 (by decide) (by decide) (by decide) (by decide) (by decide)
  simpa using h.2.2.2

/-- C6: the module performs no custom error handling: sub_pixel_conv2d
fails exactly when one of the host framework's own precondition checks
(split divisibility, reshape element count) fails, returning the framework
failure untransformed and otherwise the plain framework result; feeding a
placeholder fails exactly when the fed shape differs from the declared one.
No module-defined exception or handler intervenes in either case. -/
theorem failures_are_framework_native {α : Type} (x : T α) (s : ℕ)
    (shape : ℕ × ℕ × ℕ) :
    sub_pixel_conv2d_checked x s =
      (if s ∣ x.c ∧ x.a * (s * x.b) * (x.c / s)
            = s * x.a * (s * x.b) * (x.c / s ^ 2)
       then some (sub_pixel_conv2d x s) else none) ∧
    (feed_placeholder shape x = none ↔ (x.a, x.b, x.c) ≠ shape) := by
  constructor
  · by_cases h1 : s ∣ x.c
    · by_cases h2 : x.a * (s * x.b) * (x.c / s)
          = s * x.a * (s * x.b) * (x.c / s ^ 2)
      · simp [sub_pixel_conv2d_checked, tf_split3_checked, tf_reshape_checked,
          tf_concat2, tf_split3, sub_pixel_conv2d, h1, h2]
      · simp [sub_pixel_conv2d_checked, tf_split3_checked, tf_reshape_checked,
          tf_concat2, tf_split3, h1, h2]
    · simp [sub_pixel_conv2d_checked, tf_split3_checked, h1]
  · constructor
    · intro hnone hsh
      simp [feed_placeholder, hsh] at hnone
    · intro hsh
      simp [feed_placeholder, hsh]

/-- C9 (amended): with f = None, sub_pixel_conv2d computes the output
channel count as floor(c / s ^ 2); for every input with positive height and
width the operation succeeds exactly when s ^ 2 divides c (s dividing c is
the split's check and s ^ 2 dividing c the reshape's element-count check),
so every such input violating the divisibility makes the function fail
rather than return a tensor.  (An input with a zero spatial dimension can
pass the reshape count check vacuously; see the counterexample.) -/
theorem sub_pixel_divisibility {α : Type} (x : T α) (s : ℕ)
    (hs : 0 < s) (ha : 0 < x.a) (hb : 0 < x.b) :
    ((sub_pixel_conv2d_checked x s).isSome = true ↔ s ^ 2 ∣ x.c) ∧
    (sub_pixel_conv2d x s).c = x.c / s ^ 2 := by
  refine ⟨?_, rfl⟩
  by_cases h1 : s ∣ x.c
  · have hsc : s * (x.c / s) = x.c := Nat.mul_div_cancel' h1
    simp only [sub_pixel_conv2d_checked, tf_split3_checked, if_pos h1,
      tf_reshape_checked, tf_concat2, tf_split3]
    by_cases h2 : x.a * (s * x.b) * (x.c / s)
        = s * x.a * (s * x.b) * (x.c / s ^ 2)
    · simp only [if_pos h2, Option.isSome_some, true_iff]
      have key : x.a * x.b * x.c = x.a * x.b * (s ^ 2 * (x.c / s ^ 2)) := by
        calc x.a * x.b * x.c = x.a * x.b * (s * (x.c / s)) := by rw [hsc]
          _ = x.a * (s * x.b) * (x.c / s) := by ring
          _ = s * x.a * (s * x.b) * (x.c / s ^ 2) := h2
          _ = x.a * x.b * (s ^ 2 * (x.c / s ^ 2)) := by ring
      exact ⟨x.c / s ^ 2,
        Nat.eq_of_mul_eq_mul_left (Nat.mul_pos ha hb) key⟩
    · simp only [if_neg h2, Option.isSome_none, Bool.false_eq_true, false_iff]
      intro hd
      have hc2 : s ^ 2 * (x.c / s ^ 2) = x.c := Nat.mul_div_cancel' hd
      exact h2 (by
        calc x.a * (s * x.b) * (x.c / s) = x.a * x.b * (s * (x.c / s)) := by ring
          _ = x.a * x.b * x.c := by rw [hsc]
          _ = x.a * x.b * (s ^ 2 * (x.c / s ^ 2)) := by rw [hc2]
          _ = s * x.a * (s * x.b) * (x.c / s ^ 2) := by ring)
  · have hnd : ¬ s ^ 2 ∣ x.c := fun hd =>
      h1 ((dvd_pow_self s (by norm_num : 2 ≠ 0)).trans hd)
    simp [sub_pixel_conv2d_checked, tf_split3_checked, h1, hnd]

/-- Witness for C9: a (bsize, 1, 1, 4) input with s = 2 satisfies the
divisibility and the operation succeeds. -/
theorem sub_pixel_divisibility_witness :
    (sub_pixel_conv2d_checked (⟨1, 1, 4, fun _ _ _ _ => (0 : ℤ)⟩ : T ℤ) 2).isSome = true :=
  (sub_pixel_divisibility (⟨1, 1, 4, fun _ _ _ _ => (0 : ℤ)⟩ : T ℤ) 2
    (by decide) (by decide) (by decide)).1.mpr (by decide)

/-- Counterexample for C9 as stated: the degenerate input of static shape
(bsize, 0, 5, 6) with s = 2 violates the divisibility (4 does not divide 6),
yet sub_pixel_conv2d does not fail: the split check passes (2 divides 6) and
the reshape element-count check passes vacuously (both counts are 0), so a
(zero-element) tensor is returned. -/
theorem sub_pixel_degenerate_counterexample :
    (sub_pixel_conv2d_checked (⟨0, 5, 6, fun _ _ _ _ => (0 : ℤ)⟩ : T ℤ) 2).isSome = true
      ∧ ¬ (2 ^ 2 ∣ 6) := by
  constructor
  · decide
  · decide

/-- C4: the two optimizer steps are wired to disjoint parameter sets: the
variables selected by the startswith('d') filter are exactly the
discriminator-scope variables and those selected by startswith('g') exactly
the generator-scope variables; every trainable variable satisfies exactly
one of the two filters; and a minimize step over either filtered list
leaves every variable of the other scope unchanged. -/
theorem optimizer_variable_partition :
    (trainable_variables.filter startswith_d = discriminator_vars) ∧
    (trainable_variables.filter startswith_g = generator_vars) ∧
    (∀ v ∈ trainable_variables,
       (startswith_d v = true ∧ startswith_g v = false) ∨
       (startswith_g v = true ∧ startswith_d v = false)) ∧
    (∀ (upd theta : String → ℝ) (v : String), v ∈ generator_vars →
       minimize_step (trainable_variables.filter startswith_d) upd theta v
         = theta v) ∧
    (∀ (upd theta : String → ℝ) (v : String), v ∈ discriminator_vars →
       minimize_step (trainable_variables.filter startswith_g) upd theta v
         = theta v) := by
  have hgd : ∀ v ∈ generator_vars,
      v ∉ trainable_variables.filter startswith_d := by decide
  have hdg : ∀ v ∈ discriminator_vars,
      v ∉ trainable_variables.filter startswith_g := by decide
  refine ⟨by decide, by decide, by decide, ?_, ?_⟩
  · intro upd theta v hv
    unfold minimize_step
    rw [if_neg (hgd v hv)]
  · intro upd theta v hv
    unfold minimize_step
    rw [if_neg (hdg v hv)]

/-- Witness for C4: a discriminator step leaves the first generator kernel
at its current value. -/
theorem optimizer_variable_partition_witness :
    minimize_step (trainable_variables.filter startswith_d)
      (fun _ => 1) (fun _ => 0) ("generator/g-conv2d-0/kernel") = 0 :=
  optimizer_variable_partition.2.2.2.1 (fun _ => 1) (fun _ => 0)
    ("generator/g-conv2d-0/kernel") (by decide)

/-- Helper: the generator unfolded: first conv, the tower of 8 residual
additions, post-block conv + batch norm, long skip addition with the first
conv output, conv + sub-pixel + ReLU, final 1x1 conv + sigmoid. -/
lemma generator_unfold (envC envB : Env) (gf ch : ℕ) (x : T ℝ) :
    generator envC envB gf ch x =
      tf_sigmoid (conv2d envC ch 1 1 id ("g-conv2d-5")
        (tf_relu (sub_pixel_conv2d
          (conv2d envC (gf * 4) 3 1 id ("g-conv2d-3")
            (tf_add (conv2d envC gf 3 1 relu ("g-conv2d-0") x)
              (batch_norm envB ("g-conv2d-1")
                (conv2d envC gf 3 1 id ("g-conv2d-1")
                  (res_tower envC envB gf 8
                    (conv2d envC gf 3 1 relu ("g-conv2d-0") x)))))) 2))) := rfl

/-- C5: the generator uses residual addition: it equals the composition in
which the tower of 8 residual additions is applied to the first convolution
output, each residual addition outputs the elementwise sum y + F(y) of its
input y with the result F(y) of two conv + batch-norm + ReLU stages, and
the batch-normalized post-block convolution is added elementwise to the
first convolution's output x_ as a long skip connection before upsampling. -/
theorem generator_residual_structure (envC envB : Env) (gf ch : ℕ) (x : T ℝ) :
    (generator envC envB gf ch x =
      tf_sigmoid (conv2d envC ch 1 1 id ("g-conv2d-5")
        (tf_relu (sub_pixel_conv2d
          (conv2d envC (gf * 4) 3 1 id ("g-conv2d-3")
            (tf_add (conv2d envC gf 3 1 relu ("g-conv2d-0") x)
              (batch_norm envB ("g-conv2d-1")
                (conv2d envC gf 3 1 id ("g-conv2d-1")
                  (res_tower envC envB gf 8
                    (conv2d envC gf 3 1 relu ("g-conv2d-0") x)))))) 2)))) ∧
    (∀ (i : ℕ) (y : T ℝ), res_block_pair envC envB gf i y
        = tf_add y (residual_block envC envB gf (resName (2 * i))
            (residual_block envC envB gf (resName (2 * i - 1)) y))) ∧
    (∀ (y z : T ℝ) (n i j k : ℕ),
        (tf_add y z).val n i j k = y.val n i j k + z.val n i j k) :=
  ⟨generator_unfold envC envB gf ch x, fun _ _ => rfl, fun _ _ _ _ _ _ => rfl⟩

/-- Helper: a stride-1 SAME conv2d preserves spatial dimensions and sets
the channel count to its filter count. -/
lemma conv2d_shape (env : Env) (f k : ℕ) (act : ℝ → ℝ) (name : String) (x : T ℝ) :
    (conv2d env f k 1 act name x).a = x.a ∧
    (conv2d env f k 1 act name x).b = x.b ∧
    (conv2d env f k 1 act name x).c = f := by
  refine ⟨?_, ?_, rfl⟩ <;> simp [conv2d]

/-- Helper: the residual tower preserves the static shape. -/
lemma res_tower_shape (envC envB : Env) (gf : ℕ) :
    ∀ (n : ℕ) (y : T ℝ),
      (res_tower envC envB gf n y).a = y.a ∧
      (res_tower envC envB gf n y).b = y.b ∧
      (res_tower envC envB gf n y).c = y.c
  | 0, y => ⟨rfl, rfl, rfl⟩
  | n + 1, y => by
      have ih := res_tower_shape envC envB gf n y
      simpa [res_tower, res_block_pair, tf_add] using ih

/-- Helper: the generator doubles both spatial sizes and outputs
input_channel channels, for every input tensor and parameter assignment. -/
lemma generator_shape (envC envB : Env) (gf ch : ℕ) (x : T ℝ) :
    (generator envC envB gf ch x).a = 2 * x.a ∧
    (generator envC envB gf ch x).b = 2 * x.b ∧
    (generator envC envB gf ch x).c = ch := by
  rw [generator_unfold]
  refine ⟨?_, ?_, rfl⟩ <;>
    simp [tf_sigmoid, tf_relu, tf_add, conv2d, batch_norm,
      sub_pixel_conv2d, tf_reshape, tf_concat2, tf_split3]

/-- C3 (amended): an SRGAN instance with parameters input_height,
input_width, input_channel declares the low-resolution placeholder with
spatial shape (input_height // 2, input_width // 2) and input_channel
channels, and the generator maps any tensor of that shape to one of shape
(2 * (input_height // 2), 2 * (input_width // 2), input_channel) — equal to
(input_height, input_width, input_channel) whenever both sizes are even, as
with the default 28x28 MNIST setting (14x14x1 to 28x28x1). -/
theorem srgan_upscales_by_factor_two (h w ch gf : ℕ) (envC envB : Env)
    (v : ℕ → ℕ → ℕ → ℕ → ℝ) :
    lr_image_shape h w ch = (h / 2, w / 2, ch) ∧
    (generator envC envB gf ch ⟨h / 2, w / 2, ch, v⟩).a = 2 * (h / 2) ∧
    (generator envC envB gf ch ⟨h / 2, w / 2, ch, v⟩).b = 2 * (w / 2) ∧
    (generator envC envB gf ch ⟨h / 2, w / 2, ch, v⟩).c = ch := by
  have hg := generator_shape envC envB gf ch ⟨h / 2, w / 2, ch, v⟩
  exact ⟨rfl, hg.1, hg.2.1, hg.2.2⟩

/-- Counterexample for C3 as stated: for input_height = input_width = 29 the
low-resolution placeholder has spatial size 29 // 2 = 14 and the generator
output has spatial height 2 * 14 = 28, not input_height = 29. -/
theorem generator_odd_input_counterexample :
    (generator id_env id_env 64 1
      ⟨29 / 2, 29 / 2, 1, fun _ _ _ _ => 0⟩).a = 28 ∧ 28 ≠ 29 := by
  constructor
  · have hg := generator_shape id_env id_env 64 1
      ⟨29 / 2, 29 / 2, 1, fun _ _ _ _ => 0⟩
    rw [hg.1]
    decide
  · decide

/-- Helper: the sigmoid is strictly positive. -/
lemma sigmoid_pos (t : ℝ) : 0 < sigmoid t := by
  unfold sigmoid
  have := Real.exp_pos (-t)
  positivity

/-- Helper: the sigmoid is strictly below one. -/
lemma sigmoid_lt_one (t : ℝ) : sigmoid t < 1 := by
  unfold sigmoid
  have h := Real.exp_pos (-t)
  rw [div_lt_one (by linarith)]
  linarith

/-- C10: the final activation of both networks is a sigmoid, so every
element of the generator's output and every element of the discriminator's
output lies in the open interval (0, 1), for every input and every
parameter assignment. -/
theorem final_activations_sigmoid_bounded (envC envB : Env) (envD : Env2)
    (gf ch df : ℕ) (x y : T ℝ) (n i j k m q : ℕ) :
    (0 < (generator envC envB gf ch x).val n i j k ∧
      (generator envC envB gf ch x).val n i j k < 1) ∧
    (0 < (discriminator envC envB envD df y).val m q ∧
      (discriminator envC envB envD df y).val m q < 1) :=
  ⟨⟨sigmoid_pos _, sigmoid_lt_one _⟩, ⟨sigmoid_pos _, sigmoid_lt_one _⟩⟩

/-- Helper: subtracting ones_like is mapping subtraction of one. -/
lemma tf_sub_ones (xs : List ℝ) :
    tf_sub xs (tf_ones_like xs) = xs.map (fun u => u - 1) := by
  unfold tf_sub tf_ones_like
  induction xs with
  | nil => rfl
  | cons a t ih => simp only [List.map_cons, List.zipWith_cons_cons, ih]

/-- Helper: subtracting zeros_like is the identity. -/
lemma tf_sub_zeros (xs : List ℝ) :
    tf_sub xs (tf_zeros_like xs) = xs := by
  unfold tf_sub tf_zeros_like
  induction xs with
  | nil => rfl
  | cons a t ih => simp only [List.map_cons, List.zipWith_cons_cons, ih, sub_zero]

/-- Helper: mse_loss is the square root of the sum of squared elementwise
differences, divided by n (the factor 2 cancels the half in l2_loss). -/
lemma mse_loss_eq_norm (pred data : List ℝ) (n : ℝ) :
    mse_loss pred data n
      = Real.sqrt (((tf_sub pred data).map (fun u => u ^ 2)).sum) / n := by
  unfold mse_loss l2_loss
  rw [show 2 * ((((tf_sub pred data).map (fun u => u ^ 2)).sum) / 2)
      = ((tf_sub pred data).map (fun u => u ^ 2)).sum from by ring]

/-- Helper: the d_loss built by build_srgan in closed form. -/
lemma build_d_loss (r f : List ℝ) (bs : ℕ) (dlr glr : ℝ) :
    (build_srgan r f bs dlr glr).d_loss
      = (Real.sqrt ((r.map (fun u => (u - 1) ^ 2)).sum) / (bs : ℝ)
          + Real.sqrt ((f.map (fun u => u ^ 2)).sum) / (bs : ℝ)) / 2 := by
  simp only [build_srgan, tf_reduce_sum_scalar]
  rw [mse_loss_eq_norm, mse_loss_eq_norm, tf_sub_ones, tf_sub_zeros,
    List.map_map]
  rfl

/-- Helper: the g_loss built by build_srgan in closed form. -/
lemma build_g_loss (r f : List ℝ) (bs : ℕ) (dlr glr : ℝ) :
    (build_srgan r f bs dlr glr).g_loss
      = Real.sqrt ((f.map (fun u => (u - 1) ^ 2)).sum) / (bs : ℝ) := by
  simp only [build_srgan, tf_reduce_sum_scalar]
  rw [mse_loss_eq_norm, tf_sub_ones, List.map_map]
  rfl

/-- C8: mse_loss(pred, data, n) returns the Euclidean norm of pred - data
(the square root of the sum of squared elementwise differences) divided by
n; tf.reduce_sum on this scalar is the identity; therefore
d_real_loss = norm(d_real - 1) / batch_size,
d_fake_loss = norm(d_fake) / batch_size, d_loss is their average and
g_loss = norm(d_fake - 1) / batch_size. -/
theorem mse_loss_characterization (pred data : List ℝ) (n : ℝ)
    (r f : List ℝ) (bs : ℕ) (dlr glr : ℝ) :
    mse_loss pred data n
      = Real.sqrt (((tf_sub pred data).map (fun u => u ^ 2)).sum) / n ∧
    (∀ v : ℝ, tf_reduce_sum_scalar v = v) ∧
    (build_srgan r f bs dlr glr).d_loss
      = (Real.sqrt ((r.map (fun u => (u - 1) ^ 2)).sum) / (bs : ℝ)
          + Real.sqrt ((f.map (fun u => u ^ 2)).sum) / (bs : ℝ)) / 2 ∧
    (build_srgan r f bs dlr glr).g_loss
      = Real.sqrt ((f.map (fun u => (u - 1) ^ 2)).sum) / (bs : ℝ) :=
  ⟨mse_loss_eq_norm pred data n, fun _ => rfl,
    build_d_loss r f bs dlr glr, build_g_loss r f bs dlr glr⟩

/-- C2 (amended): the losses built by build_srgan are least-squares in the
sense that they are built from squared differences against the all-ones and
all-zeros targets with no cross-entropy term, but each term is the Euclidean
norm of the residual scaled by 1 / batch_size — the square root of the sum
of squares — not a mean squared error: d_loss is the average of
norm(d_real - 1) / batch_size and norm(d_fake) / batch_size, and
g_loss = norm(d_fake - 1) / batch_size. -/
theorem build_losses_amended (r f : List ℝ) (bs : ℕ) (dlr glr : ℝ) :
    (build_srgan r f bs dlr glr).d_loss
      = (Real.sqrt ((r.map (fun u => (u - 1) ^ 2)).sum) / (bs : ℝ)
          + Real.sqrt ((f.map (fun u => u ^ 2)).sum) / (bs : ℝ)) / 2 ∧
    (build_srgan r f bs dlr glr).g_loss
      = Real.sqrt ((f.map (fun u => (u - 1) ^ 2)).sum) / (bs : ℝ) :=
  ⟨build_d_loss r f bs dlr glr, build_g_loss r f bs dlr glr⟩

/-- Counterexample for C2 as stated: with batch_size = 2,
d_real = [3, 1] and d_fake = [0, 0], the mean squared error of d_real
against ones is ((3 - 1)^2 + (1 - 1)^2) / 2 = 2, that of d_fake against
zeros is 0, so the claimed d_loss is (2 + 0) / 2 = 1; but the code computes
d_loss = (sqrt(4) / 2 + 0) / 2 = 1 / 2. -/
theorem d_loss_not_mean_squared_error :
    (build_srgan [3, 1] [0, 0] 2 0 0).d_loss
      ≠ ((((3 : ℝ) - 1) ^ 2 + ((1 : ℝ) - 1) ^ 2) / 2
          + (((0 : ℝ)) ^ 2 + ((0 : ℝ)) ^ 2) / 2) / 2 := by
  have h4 : Real.sqrt 4 = 2 := by
    rw [show (4 : ℝ) = 2 ^ 2 from by norm_num,
      Real.sqrt_sq (by norm_num : (0 : ℝ) ≤ 2)]
  have hb : (build_srgan [3, 1] [0, 0] 2 0 0).d_loss = 1 / 2 := by
    rw [build_d_loss]
    rw [show (([(3 : ℝ), 1].map (fun u => (u - 1) ^ 2)).sum) = 4 from by
      norm_num]
    rw [show (([(0 : ℝ), 0].map (fun u => u ^ 2)).sum) = 0 from by norm_num]
    rw [h4, Real.sqrt_zero]
    norm_num
  rw [hb]
  norm_num

/-- C7: build_srgan creates a checkpoint saver with max_to_keep = 1 (so at
most one checkpoint is retained) and a summary writer targeting the fixed
directory ./model/; these are the only external outputs the build
constructs. -/
theorem build_srgan_external_outputs (d_real d_fake : List ℝ) (bs : ℕ)
    (dlr glr : ℝ) :
    (build_srgan d_real d_fake bs dlr glr).saver.max_to_keep = 1 ∧
    (build_srgan d_real d_fake bs dlr glr).writer.logdir = "./model/" :=
  ⟨rfl, rfl⟩

end SRGANModel
